import Mathlib

/-!
Shallow embedding of the XLSForm validation pipeline of
`src/validator.py` (a Streamlit script).  Sheets are modelled as the
data the pipeline actually reads: the list of sheet names, the survey
header and rows (columns `name`/`type`/`label`/`required`), and the
choices header and rows (columns `list_name`/`name`).  A pandas cell is
`Option String` (`none` is NaN / an empty cell).  The script's
`st.error` + `st.stop` control flow is modelled as a first-failure scan
over the stage list, in the source's order.
-/

namespace XlsformValidator

/-- Characters of the regex class `[A-Za-z0-9_]` (ASCII word characters,
used both by the name pattern of line 98 and by the word boundary of
line 118 of `src/validator.py`). -/
def isWordChar (c : Char) : Bool :=
  c.isAlpha || c.isDigit || c == '_'

/-- Full match of `[A-Za-z][A-Za-z0-9_]*` against a character list. -/
def strictNameMatch : List Char → Bool
  | [] => false
  | c :: rest => c.isAlpha && rest.all isWordChar

/-- Python `re.match(r"^[A-Za-z][A-Za-z0-9_]*$", s)` as a Boolean: in
Python `$` also matches just before one trailing newline. -/
def pyNameMatch (s : String) : Bool :=
  strictNameMatch s.toList ||
    (s.toList.getLast? == some '\n' && strictNameMatch s.toList.dropLast)

/-- Python `str.strip` on a character list (drop whitespace on both
ends). -/
def pyStrip (s : List Char) : List Char :=
  ((s.dropWhile Char.isWhitespace).reverse.dropWhile Char.isWhitespace).reverse

/-- Python `str.strip().lower()` (ASCII lowering, as the relevant cell
values are ASCII). -/
def pyStripLower (s : String) : String :=
  String.mk ((pyStrip s.toList).map Char.toLower)

/-- Word boundary `\b` right after the matched keyword: end of input or
a non-word character. -/
def boundaryAfterKw : List Char → Bool
  | [] => true
  | c :: _ => !(isWordChar c)

/-- Match of `select_(one|multiple)\b` at the head of the list. -/
def kwBoundaryAt (l : List Char) : Bool :=
  ("select_one".toList.isPrefixOf l && boundaryAfterKw (l.drop 10)) ||
    ("select_multiple".toList.isPrefixOf l && boundaryAfterKw (l.drop 15))

/-- Python `str.contains(r"select_(one|multiple)\b")`: search for the
pattern at every position (line 117 of `src/validator.py`). -/
def containsSelectKw : List Char → Bool
  | [] => false
  | c :: rest => kwBoundaryAt (c :: rest) || containsSelectKw rest

/-- Match of the literal keyword `select_one` or `select_multiple` at
the head of the list, returning the remainder. -/
def kwSplit (l : List Char) : Option (List Char) :=
  if "select_one".toList.isPrefixOf l then some (l.drop 10)
  else if "select_multiple".toList.isPrefixOf l then some (l.drop 15)
  else none

/-- Match of `\s+([^\s]+)` at the head of the list, returning the
capture (greedy whitespace run, then a maximal non-whitespace run). -/
def parseListName (l : List Char) : Option (List Char) :=
  let ws := l.takeWhile Char.isWhitespace
  let cap := (l.dropWhile Char.isWhitespace).takeWhile (fun c => !c.isWhitespace)
  if ws.isEmpty || cap.isEmpty then none else some cap

/-- Leftmost match of `select_(?:one|multiple)\s+([^\s]+)` (the
`str.extract` of line 137 of `src/validator.py`): scan positions left to
right; at a keyword occurrence the whole tail pattern must also match,
otherwise the scan moves on. -/
def extractScan : List Char → Option (List Char)
  | [] => none
  | c :: rest =>
    match kwSplit (c :: rest) with
    | some after =>
      match parseListName after with
      | some cap => some cap
      | none => extractScan rest
    | none => extractScan rest

/-- First captured list identifier of a survey `type` cell value. -/
def extractFirstList (s : String) : Option String :=
  (extractScan s.toList).map String.mk

/-- Substring test (used to state which names a diagnostic message
mentions). -/
def hasSubstring (pat : List Char) : List Char → Bool
  | [] => pat.isEmpty
  | c :: rest => pat.isPrefixOf (c :: rest) || hasSubstring pat rest

/-- Row of the `survey` sheet; a cell is `none` when it is NaN/empty. -/
structure SurveyRow where
  name : Option String := none
  type : Option String := none
  label : Option String := none
  required : Option String := none
deriving DecidableEq

/-- Row of the `choices` sheet. -/
structure ChoiceRow where
  list_name : Option String := none
  name : Option String := none
deriving DecidableEq

/-- The parsed workbook as the pipeline sees it: sheet names, and the
headers and rows of the two sheets it reads (the `choices` fields are
only meaningful when `"choices"` is among the sheet names). -/
structure Workbook where
  sheetNames : List String
  surveyCols : List String
  surveyRows : List SurveyRow
  choicesCols : List String := []
  choicesRows : List ChoiceRow := []
deriving DecidableEq

/-- Code-point key of a string, on which Python compares and sorts
strings. -/
def strKey (s : String) : List Nat :=
  s.toList.map Char.toNat

/-- Strict lexicographic order on code-point keys. -/
def lexLt : List Nat → List Nat → Bool
  | [], [] => false
  | [], _ :: _ => true
  | _ :: _, [] => false
  | a :: as, b :: bs => decide (a < b) || (decide (a = b) && lexLt as bs)

/-- Lexicographic order (reflexive) on code-point keys. -/
def lexLe : List Nat → List Nat → Bool
  | [], _ => true
  | _ :: _, [] => false
  | a :: as, b :: bs => decide (a < b) || (decide (a = b) && lexLe as bs)

/-- Python string order (code-point lexicographic), as used by
`sorted` on the missing list names. -/
def stringLe (a b : String) : Prop :=
  lexLe (strKey a) (strKey b) = true

instance : DecidableRel stringLe := fun a b => by
  unfold stringLe; exact inferInstance

/-- Number of survey rows whose `name` cell is the (non-NaN) value `n`. -/
def countName (s : List SurveyRow) (n : String) : Nat :=
  (s.map SurveyRow.name).count (some n)

/-- Tagging of flagged rows with their spreadsheet row number
(`df["excel_row"] = df.index + 2`): a row `r` at zero-based index `i`
with flag payload `p r = some n` contributes the pair `(i + 2, n)`. -/
def tagRows (p : SurveyRow → Option String) : Nat → List SurveyRow → List (Nat × String)
  | _, [] => []
  | i, r :: rest =>
    (match p r with
      | some n => [(i + 2, n)]
      | none => []) ++ tagRows p (i + 1) rest

/-- One row's contribution to
`dup_mask = name.notna() & name.duplicated(keep=False)` (lines 76-79):
the name, when it is non-NaN and occurs at least twice in the column. -/
def dupFlag (s : List SurveyRow) (r : SurveyRow) : Option String :=
  match r.name with
  | some n => if 2 ≤ countName s n then some n else none
  | none => none

/-- Content of `dup_df` (lines 85-86) before sorting: flagged rows as
`(excel_row, name)` pairs in row order. -/
def dupPairs (s : List SurveyRow) : List (Nat × String) :=
  tagRows (dupFlag s) 0 s

/-- Order used by `dup_df.sort_values(["name", "excel_row"])`:
lexicographic on (name in Python string order, excel_row). -/
def dupRowLE (a b : Nat × String) : Prop :=
  (lexLt (strKey a.2) (strKey b.2) ||
    (decide (strKey a.2 = strKey b.2) && decide (a.1 ≤ b.1))) = true

instance : DecidableRel dupRowLE := fun a b => by
  unfold dupRowLE; exact inferInstance

/-- Content of `dup_df` after `sort_values(["name", "excel_row"])`
(a stable sort over the row-ordered pairs). -/
def sortedDupPairs (s : List SurveyRow) : List (Nat × String) :=
  List.insertionSort dupRowLE (dupPairs s)

/-- One row's contribution to `invalid_name_mask` (lines 97-99): the
name, when it is non-NaN and its string form fails the name regex. -/
def invalidFlag (r : SurveyRow) : Option String :=
  match r.name with
  | some n => if pyNameMatch n then none else some n
  | none => none

/-- Content of `invalid_df` (lines 107-108), in row order (no sort in
the source for this one). -/
def invalidPairs (s : List SurveyRow) : List (Nat × String) :=
  tagRows invalidFlag 0 s

/-- The flag `select_used` (lines 117-119): some non-NaN `type` cell
contains `select_(one|multiple)\b` (`na = False`). -/
def selectUsed (s : List SurveyRow) : Bool :=
  s.any fun r =>
    match r.type with
    | some t => containsSelectKw t.toList
    | none => false

/-- The series `used_lists` (lines 134-140): first capture of the
extraction regex over each non-NaN `type` cell, NaN results dropped. -/
def usedLists (s : List SurveyRow) : List String :=
  s.filterMap fun r => r.type.bind extractFirstList

/-- The set `defined_lists` (line 132): non-NaN `list_name` values. -/
def definedLists (cs : List ChoiceRow) : List String :=
  cs.filterMap ChoiceRow.list_name

/-- The value `sorted(missing_lists)` where
`missing_lists = set(used_lists) - defined_lists` (lines 142-145). -/
def missingLists (s : List SurveyRow) (cs : List ChoiceRow) : List String :=
  List.insertionSort stringLe
    (((usedLists s).filter fun l => decide (l ∉ definedLists cs)).dedup)

/-- The (list_name, name) cell pair of a choices row. -/
def choicePair (r : ChoiceRow) : Option String × Option String :=
  (r.list_name, r.name)

/-- Number of choices rows sharing a given (list_name, name) pair. -/
def countChoicePair (cs : List ChoiceRow) (p : Option String × Option String) : Nat :=
  (cs.map choicePair).count p

/-- Rows flagged by the duplicate-choice `dup_mask` (lines 150-151):
pair duplicated (`keep=False`) and both cells non-NaN; the shown table
is their (list_name, name) pairs. -/
def dupChoiceRows (cs : List ChoiceRow) : List (Option String × Option String) :=
  (cs.filter fun r =>
      r.list_name.isSome && r.name.isSome &&
        decide (2 ≤ countChoicePair cs (choicePair r))).map choicePair

/-- Rows flagged by `missing_type = type.isna()` (line 159), as
`(excel_row, name)` pairs. -/
def missingTypePairsAux : Nat → List SurveyRow → List (Nat × Option String)
  | _, [] => []
  | i, r :: rest =>
    (match r.type with
      | some _ => []
      | none => [(i + 2, r.name)]) ++ missingTypePairsAux (i + 1) rest

/-- Content of `missing_type_df`. -/
def missingTypePairs (s : List SurveyRow) : List (Nat × Option String) :=
  missingTypePairsAux 0 s

/-- The normalized type of line 175:
`type.fillna("").astype(str).str.strip().str.lower()`. -/
def typeNormalized (r : SurveyRow) : String :=
  match r.type with
  | none => ""
  | some s => pyStripLower s

/-- The exemption set `end_types` of line 174. -/
def endTypes : List String := ["end_group", "end_repeat"]

/-- The mask `rows_requiring_name` of line 176. -/
def requiresName (r : SurveyRow) : Bool :=
  !(endTypes.contains (typeNormalized r))

/-- One row's contribution to `missing_name` (line 177): NaN name on a
row whose normalized type is not an end-of-structure marker. -/
def missingNameFlag (r : SurveyRow) : Bool :=
  r.name.isNone && requiresName r

/-- Diagnostics the script can stop with, one constructor per
`st.error` site, carrying the tabular payload the script builds for it
(the empty-name error of line 179 builds none). -/
inductive VError where
  | readSurveyFailed
  | nameColumnMissing
  | missingSheets (sheets : List String)
  | missingColumns (cols : List String)
  | duplicateNames (rows : List (Nat × String))
  | invalidNames (rows : List (Nat × String))
  | selectNoChoices
  | choicesColumnsMissing
  | missingLists (lists : List String)
  | duplicateChoices (rows : List (Option String × Option String))
  | missingTypeCells (rows : List (Nat × Option String))
  | missingNameCells
deriving DecidableEq

/-- Outcome of a run of the script. -/
inductive VResult where
  | success
  | failure (e : VError)
deriving DecidableEq

/-- The `st.error` text of each diagnostic (for the survey read error,
its static prefix; the two adjacent invalid-name literals of lines
103-104 concatenate without a space). -/
def errorMessage : VError → String
  | .readSurveyFailed => "Unable to read the 'survey' sheet from this file: "
  | .nameColumnMissing => "The 'survey' sheet must contain a 'name' column."
  | .missingSheets l => "Missing required sheets: " ++ String.intercalate ", " l
  | .missingColumns l =>
      "'survey' sheet is missing required columns: " ++ String.intercalate ", " l
  | .duplicateNames _ => "Duplicate question names found."
  | .invalidNames _ =>
      "Invalid question name found.Names must start with a letter and contain only letters, numbers, and underscores"
  | .selectNoChoices =>
      "This form uses select_one / select_multiple but has no 'choices' sheet."
  | .choicesColumnsMissing => "'choices' sheet must contain 'list_name' and 'name' columns."
  | .missingLists _ => "Missing choice lists referenced in survey:"
  | .duplicateChoices _ => "Duplicate choice names found within the same list:"
  | .missingTypeCells _ => "Empty cells found in required column 'type'."
  | .missingNameCells =>
      "Empty cells found in required column 'name' (except 'end_group' / 'end_repeat' rows)."

/-- Whether the script renders an excel_row-tagged table next to the
error: true exactly for the three diagnostics whose dataframe carries an
`excel_row` column (lines 86-92, 107-113, 164-170); the empty-name stop
of lines 178-180 shows only the message. -/
def showsRowNumbers : VError → Bool
  | .duplicateNames _ => true
  | .invalidNames _ => true
  | .missingTypeCells _ => true
  | _ => false

/-- Test used to state the missing-required-sheets claims. -/
def isMissingSheetsError : VResult → Bool
  | .failure (.missingSheets _) => true
  | _ => false

/-- The guard of lines 31-38: `pd.read_excel(..., sheet_name="survey")`
raises when the workbook has no `survey` sheet. -/
def checkSurveyReadable (wb : Workbook) : Option VError :=
  if "survey" ∉ wb.sheetNames then some .readSurveyFailed else none

/-- The guard of lines 40-42. -/
def checkNameColumn (wb : Workbook) : Option VError :=
  if "name" ∉ wb.surveyCols then some .nameColumnMissing else none

/-- The set `required_sheets` of line 59. -/
def requiredSheets : List String := ["survey"]

/-- The check of lines 58-65. -/
def checkRequiredSheets (wb : Workbook) : Option VError :=
  let ms := requiredSheets.filter fun s => decide (s ∉ wb.sheetNames)
  if ms ≠ [] then some (.missingSheets ms) else none

/-- The set `required_columns` of line 68 (its Python source order). -/
def requiredColumns : List String := ["type", "name"]

/-- The check of lines 67-73. -/
def checkRequiredColumns (wb : Workbook) : Option VError :=
  let mc := requiredColumns.filter fun c => decide (c ∉ wb.surveyCols)
  if mc ≠ [] then some (.missingColumns mc) else none

/-- The check of lines 76-93. -/
def checkDuplicateNames (wb : Workbook) : Option VError :=
  if dupPairs wb.surveyRows ≠ [] then
    some (.duplicateNames (sortedDupPairs wb.surveyRows))
  else none

/-- The check of lines 96-114. -/
def checkInvalidNames (wb : Workbook) : Option VError :=
  if invalidPairs wb.surveyRows ≠ [] then
    some (.invalidNames (invalidPairs wb.surveyRows))
  else none

/-- The check of lines 117-123. -/
def checkSelectWithoutChoices (wb : Workbook) : Option VError :=
  if selectUsed wb.surveyRows ∧ "choices" ∉ wb.sheetNames then
    some .selectNoChoices
  else none

/-- The block of lines 125-146: when a choices sheet exists, its columns
must include `list_name` and `name`, and every used list must be
defined. -/
def checkChoicesBlock (wb : Workbook) : Option VError :=
  if "choices" ∈ wb.sheetNames then
    if "list_name" ∈ wb.choicesCols ∧ "name" ∈ wb.choicesCols then
      if missingLists wb.surveyRows wb.choicesRows ≠ [] then
        some (.missingLists (missingLists wb.surveyRows wb.choicesRows))
      else none
    else some .choicesColumnsMissing
  else none

/-- The block of lines 149-156. -/
def checkDuplicateChoices (wb : Workbook) : Option VError :=
  if "choices" ∈ wb.sheetNames then
    if dupChoiceRows wb.choicesRows ≠ [] then
      some (.duplicateChoices (dupChoiceRows wb.choicesRows))
    else none
  else none

/-- The check of lines 158-171. -/
def checkMissingType (wb : Workbook) : Option VError :=
  if missingTypePairs wb.surveyRows ≠ [] then
    some (.missingTypeCells (missingTypePairs wb.surveyRows))
  else none

/-- The check of lines 173-180. -/
def checkMissingName (wb : Workbook) : Option VError :=
  if wb.surveyRows.any missingNameFlag then some .missingNameCells else none

/-- First `some` of the stage results: each `st.error` is followed by
`st.stop`, so the script surfaces the first failing stage only. -/
def firstError : List (Option VError) → Option VError
  | [] => none
  | some e :: _ => some e
  | none :: rest => firstError rest

/-- The stages of `src/validator.py` in source order. -/
def stages (wb : Workbook) : List (Option VError) :=
  [checkSurveyReadable wb, checkNameColumn wb, checkRequiredSheets wb,
    checkRequiredColumns wb, checkDuplicateNames wb, checkInvalidNames wb,
    checkSelectWithoutChoices wb, checkChoicesBlock wb,
    checkDuplicateChoices wb, checkMissingType wb, checkMissingName wb]

/-- Whole-script outcome: the first failing stage's diagnostic, or
success (the closing `st.success` of line 183). -/
def validate (wb : Workbook) : VResult :=
  match firstError (stages wb) with
  | some e => .failure e
  | none => .success

/-- The workbook of the claim C1 scenario: two survey rows named `q1`,
the first of a select type, and no choices sheet. -/
def wbDupAndSelect : Workbook where
  sheetNames := ["survey"]
  surveyCols := ["name", "type"]
  surveyRows :=
    [{ name := some "q1", type := some "select_one colors" },
     { name := some "q1", type := some "text" }]

/-- The round-trip workbook of claim C3: one text question, a choices
sheet with the two required columns and no rows. -/
def wbRoundTrip : Workbook where
  sheetNames := ["survey", "choices"]
  surveyCols := ["name", "type", "label", "required"]
  surveyRows :=
    [{ name := some "q1", type := some "text", label := some "Q1",
       required := some "true" }]
  choicesCols := ["list_name", "name"]

/-! Order facts about the code-point comparisons, so that the sorted
outputs of the pipeline can be proved `List.Sorted`. -/

theorem lexLe_total : ∀ a b : List Nat, lexLe a b = true ∨ lexLe b a = true
  | [], _ => Or.inl rfl
  | _ :: _, [] => Or.inr rfl
  | a :: as, b :: bs => by
    rcases Nat.lt_trichotomy a b with h | h | h
    · left; simp [lexLe, h]
    · subst h
      rcases lexLe_total as bs with ih | ih
      · left; simp [lexLe, ih]
      · right; simp [lexLe, ih]
    · right; simp [lexLe, h]

theorem lexLe_trans :
    ∀ a b c : List Nat, lexLe a b = true → lexLe b c = true → lexLe a c = true
  | [], _, _, _, _ => rfl
  | _ :: _, [], _, hab, _ => by simp [lexLe] at hab
  | _ :: _, _ :: _, [], _, hbc => by simp [lexLe] at hbc
  | a :: as, b :: bs, c :: cs, hab, hbc => by
    simp only [lexLe, Bool.or_eq_true, Bool.and_eq_true, decide_eq_true_eq] at hab hbc ⊢
    rcases hab with h1 | ⟨h1, h1'⟩
    · rcases hbc with h2 | ⟨h2, _⟩
      · exact Or.inl (Nat.lt_trans h1 h2)
      · exact Or.inl (h2 ▸ h1)
    · rcases hbc with h2 | ⟨h2, h2'⟩
      · exact Or.inl (h1 ▸ h2)
      · exact Or.inr ⟨h1.trans h2, lexLe_trans as bs cs h1' h2'⟩

theorem lexLt_trichotomy :
    ∀ a b : List Nat, lexLt a b = true ∨ lexLt b a = true ∨ a = b
  | [], [] => Or.inr (Or.inr rfl)
  | [], _ :: _ => Or.inl rfl
  | _ :: _, [] => Or.inr (Or.inl rfl)
  | a :: as, b :: bs => by
    rcases Nat.lt_trichotomy a b with h | h | h
    · left; simp [lexLt, h]
    · subst h
      rcases lexLt_trichotomy as bs with ih | ih | ih
      · left; simp [lexLt, ih]
      · right; left; simp [lexLt, ih]
      · right; right; simp [ih]
    · right; left; simp [lexLt, h]

theorem lexLt_trans :
    ∀ a b c : List Nat, lexLt a b = true → lexLt b c = true → lexLt a c = true
  | [], [], _, hab, _ => by simp [lexLt] at hab
  | [], _ :: _, [], _, hbc => by simp [lexLt] at hbc
  | [], _ :: _, _ :: _, _, _ => rfl
  | _ :: _, [], _, hab, _ => by simp [lexLt] at hab
  | _ :: _, _ :: _, [], _, hbc => by simp [lexLt] at hbc
  | a :: as, b :: bs, c :: cs, hab, hbc => by
    simp only [lexLt, Bool.or_eq_true, Bool.and_eq_true, decide_eq_true_eq] at hab hbc ⊢
    rcases hab with h1 | ⟨h1, h1'⟩
    · rcases hbc with h2 | ⟨h2, _⟩
      · exact Or.inl (Nat.lt_trans h1 h2)
      · exact Or.inl (h2 ▸ h1)
    · rcases hbc with h2 | ⟨h2, h2'⟩
      · exact Or.inl (h1 ▸ h2)
      · exact Or.inr ⟨h1.trans h2, lexLt_trans as bs cs h1' h2'⟩

instance : IsTotal String stringLe :=
  ⟨fun a b => by unfold stringLe; exact lexLe_total _ _⟩

instance : IsTrans String stringLe :=
  ⟨fun a b c => by unfold stringLe; exact lexLe_trans _ _ _⟩

instance : IsTotal (Nat × String) dupRowLE := by
  constructor
  intro a b
  unfold dupRowLE
  simp only [Bool.or_eq_true, Bool.and_eq_true, decide_eq_true_eq]
  rcases lexLt_trichotomy (strKey a.2) (strKey b.2) with h | h | h
  · exact Or.inl (Or.inl h)
  · exact Or.inr (Or.inl h)
  · rcases Nat.le_total a.1 b.1 with h' | h'
    · exact Or.inl (Or.inr ⟨h, h'⟩)
    · exact Or.inr (Or.inr ⟨h.symm, h'⟩)

instance : IsTrans (Nat × String) dupRowLE := by
  constructor
  intro a b c hab hbc
  unfold dupRowLE at hab hbc ⊢
  simp only [Bool.or_eq_true, Bool.and_eq_true, decide_eq_true_eq] at hab hbc ⊢
  rcases hab with h1 | ⟨h1, h1'⟩
  · rcases hbc with h2 | ⟨h2, _⟩
    · exact Or.inl (lexLt_trans _ _ _ h1 h2)
    · exact Or.inl (h2 ▸ h1)
  · rcases hbc with h2 | ⟨h2, h2'⟩
    · exact Or.inl (h1 ▸ h2)
    · exact Or.inr ⟨h1.trans h2, Nat.le_trans h1' h2'⟩

/-! Membership in the tagged-row tables. -/

theorem mem_tagRows (p : SurveyRow → Option String) (n : String) :
    ∀ (rows : List SurveyRow) (i m : Nat),
      ((m, n) ∈ tagRows p i rows ↔
        ∃ k, ∃ hk : k < rows.length,
          m = i + k + 2 ∧ p (rows.get ⟨k, hk⟩) = some n) := by
  intro rows
  induction rows with
  | nil => intro i m; simp [tagRows]
  | cons r rest ih =>
    intro i m
    constructor
    · intro h
      rcases List.mem_append.mp (by simpa [tagRows] using h) with h1 | h2
      · cases hp : p r with
        | some n' =>
          rw [hp] at h1
          simp only [List.mem_singleton, Prod.mk.injEq] at h1
          refine ⟨0, Nat.succ_pos _, by omega, ?_⟩
          simp [hp, h1.2, h1.1]
        | none => rw [hp] at h1; simp at h1
      · obtain ⟨k, hk, hm, hpk⟩ := (ih (i + 1) m).mp h2
        exact ⟨k + 1, Nat.succ_lt_succ hk, by omega, by simpa using hpk⟩
    · rintro ⟨k, hk, hm, hpk⟩
      show (m, n) ∈ (match p r with
        | some n' => [(i + 2, n')]
        | none => []) ++ tagRows p (i + 1) rest
      apply List.mem_append.mpr
      cases k with
      | zero =>
        left
        rw [show (r :: rest).get ⟨0, hk⟩ = r from rfl] at hpk
        rw [hpk]
        have hm' : m = i + 2 := by omega
        simp [hm']
      | succ k =>
        right
        exact (ih (i + 1) m).mpr
          ⟨k, Nat.lt_of_succ_lt_succ hk, by omega, by simpa using hpk⟩

theorem dupFlag_eq_some {s : List SurveyRow} {r : SurveyRow} {n : String} :
    dupFlag s r = some n ↔ r.name = some n ∧ 2 ≤ countName s n := by
  unfold dupFlag
  cases hr : r.name with
  | none => simp
  | some n' =>
    simp only [Option.some.injEq]
    by_cases hc : 2 ≤ countName s n'
    · simp only [if_pos hc, Option.some.injEq]
      constructor
      · rintro rfl; exact ⟨rfl, hc⟩
      · rintro ⟨rfl, _⟩; rfl
    · simp only [if_neg hc]
      constructor
      · intro h; exact absurd h (by simp)
      · rintro ⟨rfl, h2⟩; exact absurd h2 hc

theorem invalidFlag_eq_some {r : SurveyRow} {n : String} :
    invalidFlag r = some n ↔ r.name = some n ∧ pyNameMatch n = false := by
  unfold invalidFlag
  cases hr : r.name with
  | none => simp
  | some n' =>
    simp only [Option.some.injEq]
    by_cases hc : pyNameMatch n'
    · simp only [if_pos hc]
      constructor
      · intro h; exact absurd h (by simp)
      · rintro ⟨rfl, h2⟩; simp [hc] at h2
    · simp only [if_neg hc, Option.some.injEq]
      constructor
      · rintro rfl
        exact ⟨rfl, Bool.eq_false_iff.mpr hc⟩
      · rintro ⟨rfl, _⟩; rfl

theorem mem_dupPairs {s : List SurveyRow} {m : Nat} {n : String} :
    (m, n) ∈ dupPairs s ↔
      ∃ k, ∃ hk : k < s.length,
        m = k + 2 ∧ (s.get ⟨k, hk⟩).name = some n ∧ 2 ≤ countName s n := by
  unfold dupPairs
  rw [mem_tagRows]
  constructor
  · rintro ⟨k, hk, hm, hp⟩
    obtain ⟨h1, h2⟩ := dupFlag_eq_some.mp hp
    exact ⟨k, hk, by omega, h1, h2⟩
  · rintro ⟨k, hk, hm, h1, h2⟩
    exact ⟨k, hk, by omega, dupFlag_eq_some.mpr ⟨h1, h2⟩⟩

theorem mem_invalidPairs {s : List SurveyRow} {m : Nat} {n : String} :
    (m, n) ∈ invalidPairs s ↔
      ∃ k, ∃ hk : k < s.length,
        m = k + 2 ∧ (s.get ⟨k, hk⟩).name = some n ∧ pyNameMatch n = false := by
  unfold invalidPairs
  rw [mem_tagRows]
  constructor
  · rintro ⟨k, hk, hm, hp⟩
    obtain ⟨h1, h2⟩ := invalidFlag_eq_some.mp hp
    exact ⟨k, hk, by omega, h1, h2⟩
  · rintro ⟨k, hk, hm, h1, h2⟩
    exact ⟨k, hk, by omega, invalidFlag_eq_some.mpr ⟨h1, h2⟩⟩

/-! Facts connecting the list-identifier extraction to the keyword
search and to the missing-lists output. -/

theorem ws_not_word {c : Char} (h : c.isWhitespace = true) : isWordChar c = false := by
  simp only [Char.isWhitespace, Bool.or_eq_true, decide_eq_true_eq] at h
  rcases h with ((h | h) | h) | h <;> subst h <;> decide

theorem boundary_of_parse {l cap : List Char} (h : parseListName l = some cap) :
    boundaryAfterKw l = true := by
  cases l with
  | nil => simp [parseListName] at h
  | cons c rest =>
    by_cases hw : c.isWhitespace
    · simp [boundaryAfterKw, ws_not_word hw]
    · exfalso
      simp [parseListName, List.takeWhile_cons, hw] at h

theorem kwBoundary_of_split_parse {l after cap : List Char}
    (hs : kwSplit l = some after) (hp : parseListName after = some cap) :
    kwBoundaryAt l = true := by
  unfold kwSplit at hs
  unfold kwBoundaryAt
  by_cases h1 : "select_one".toList.isPrefixOf l
  · rw [if_pos h1] at hs
    obtain rfl : l.drop 10 = after := by simpa using hs
    simp only [Bool.or_eq_true, Bool.and_eq_true]
    left
    exact ⟨h1, boundary_of_parse hp⟩
  · rw [if_neg h1] at hs
    by_cases h2 : "select_multiple".toList.isPrefixOf l
    · rw [if_pos h2] at hs
      obtain rfl : l.drop 15 = after := by simpa using hs
      simp only [Bool.or_eq_true, Bool.and_eq_true]
      right
      exact ⟨h2, boundary_of_parse hp⟩
    · rw [if_neg h2] at hs
      exact absurd hs (by simp)

theorem contains_of_extractScan :
    ∀ {l cap : List Char}, extractScan l = some cap → containsSelectKw l = true := by
  intro l
  induction l with
  | nil => intro cap h; simp [extractScan] at h
  | cons c rest ih =>
    intro cap h
    rw [containsSelectKw]
    cases hks : kwSplit (c :: rest) with
    | some after =>
      cases hp : parseListName after with
      | some cap' =>
        rw [kwBoundary_of_split_parse hks hp]
        rfl
      | none =>
        simp only [extractScan, hks, hp] at h
        rw [ih h, Bool.or_true]
    | none =>
      simp only [extractScan, hks] at h
      rw [ih h, Bool.or_true]

theorem selectUsed_of_extract {rows : List SurveyRow} {r : SurveyRow} {t ℓ : String}
    (hr : r ∈ rows) (ht : r.type = some t) (he : extractFirstList t = some ℓ) :
    selectUsed rows = true := by
  have hc : containsSelectKw t.toList = true := by
    unfold extractFirstList at he
    cases hs : extractScan t.toList with
    | some cap => exact contains_of_extractScan hs
    | none => rw [hs] at he; simp at he
  unfold selectUsed
  rw [List.any_eq_true]
  exact ⟨r, hr, by rw [ht]; exact hc⟩

theorem mem_usedLists {rows : List SurveyRow} {r : SurveyRow} {t ℓ : String}
    (hr : r ∈ rows) (ht : r.type = some t) (he : extractFirstList t = some ℓ) :
    ℓ ∈ usedLists rows := by
  unfold usedLists
  exact List.mem_filterMap.mpr ⟨r, hr, by rw [ht]; exact he⟩

theorem mem_missingLists {s : List SurveyRow} {cs : List ChoiceRow} {ℓ : String}
    (hu : ℓ ∈ usedLists s) (hd : ℓ ∉ definedLists cs) :
    ℓ ∈ missingLists s cs := by
  unfold missingLists
  rw [(List.perm_insertionSort stringLe _).mem_iff, List.mem_dedup, List.mem_filter]
  exact ⟨hu, by simpa using hd⟩

theorem sorted_missingLists (s : List SurveyRow) (cs : List ChoiceRow) :
    List.Sorted stringLe (missingLists s cs) := by
  unfold missingLists
  exact List.sorted_insertionSort stringLe _

/-! Facts for the embedded-keyword claim. -/

theorem containsSelectKw_append_right :
    ∀ (pre l : List Char), containsSelectKw l = true →
      containsSelectKw (pre ++ l) = true
  | [], _, h => h
  | c :: pre, l, h => by
    rw [List.cons_append, containsSelectKw,
      containsSelectKw_append_right pre l h, Bool.or_true]

theorem containsSelectKw_select_one_space (post : List Char) :
    containsSelectKw ("select_one ".toList ++ post) = true := rfl

/-! Concrete workbooks used by the claim theorems and witnesses. -/

/-- Workbook with no `survey` sheet at all. -/
def wbNoSurvey : Workbook where
  sheetNames := ["settings"]
  surveyCols := []
  surveyRows := []

/-- Workbook whose survey header has neither `name` nor `type`. -/
def wbNoNameCol : Workbook where
  sheetNames := ["survey"]
  surveyCols := ["label"]
  surveyRows := []

/-- Workbook whose survey header has `name` but not `type`. -/
def wbTypeMissingCol : Workbook where
  sheetNames := ["survey"]
  surveyCols := ["name"]
  surveyRows := []

/-- Workbook whose single row has a name that fails the lexical rule. -/
def wbBadName : Workbook where
  sheetNames := ["survey"]
  surveyCols := ["name", "type"]
  surveyRows := [{ name := some "my name", type := some "text" }]

/-- Workbook whose single row is a case/whitespace variant of an
end-of-structure marker with an empty name. -/
def wbEndGroupRow : Workbook where
  sheetNames := ["survey"]
  surveyCols := ["name", "type"]
  surveyRows := [{ name := none, type := some " End_Group " }]

/-- Workbook whose single text row has an empty name. -/
def wbEmptyName : Workbook where
  sheetNames := ["survey"]
  surveyCols := ["name", "type"]
  surveyRows := [{ name := none, type := some "text" }]

/-- Workbook referencing an undefined choice list, with a well-formed
empty choices sheet. -/
def wbSelectMissingList : Workbook where
  sheetNames := ["survey", "choices"]
  surveyCols := ["name", "type"]
  surveyRows := [{ name := some "q1", type := some "select_one colors" }]
  choicesCols := ["list_name", "name"]

/-- Workbook whose `type` embeds the select keyword inside a longer
token, with no choices sheet. -/
def wbEmbeddedKeyword : Workbook where
  sheetNames := ["survey"]
  surveyCols := ["name", "type"]
  surveyRows := [{ name := some "q1", type := some "not_select_one pets" }]

/-- C1: on the survey [(name=q1, type=select_one colors), (name=q1,
type=text)] with no choices sheet, both the duplicate-name condition and
the select-without-choices condition hold, yet the pipeline reports the
duplicate-name error (the earlier stage), with both rows tagged 2 and 3. -/
theorem c1_fixed_order_duplicate_first :
    validate wbDupAndSelect = .failure (.duplicateNames [(2, "q1"), (3, "q1")]) ∧
      selectUsed wbDupAndSelect.surveyRows = true ∧
      "choices" ∉ wbDupAndSelect.sheetNames := by decide

/-- C2 counterexample: on a workbook without a `survey` sheet the
pipeline stops at the survey-read guard, not with a
missing-required-sheets diagnostic, so the claim as stated is false. -/
theorem c2_missing_survey_counterexample :
    "survey" ∉ wbNoSurvey.sheetNames ∧
      validate wbNoSurvey = .failure .readSurveyFailed ∧
      isMissingSheetsError (validate wbNoSurvey) = false := by decide

/-- C2 amended: for every workbook without a `survey` sheet, validation
fails before any column or row check with the survey-read diagnostic,
whose message does name `survey`; the dedicated missing-required-sheets
check never produces the failure. -/
theorem c2_missing_survey_read_guard (wb : Workbook)
    (h : "survey" ∉ wb.sheetNames) :
    validate wb = .failure .readSurveyFailed ∧
      hasSubstring "survey".toList
        (errorMessage VError.readSurveyFailed).toList = true := by
  refine ⟨?_, by decide⟩
  simp [validate, stages, firstError, checkSurveyReadable, h]

/-- C2 witness: the amended theorem applied to `wbNoSurvey`. -/
theorem c2_missing_survey_read_guard_witness :
    validate wbNoSurvey = .failure .readSurveyFailed ∧
      hasSubstring "survey".toList
        (errorMessage VError.readSurveyFailed).toList = true :=
  c2_missing_survey_read_guard wbNoSurvey (by decide)

/-- C3: the one-text-question workbook with an empty (but well-headed)
choices sheet passes every stage and yields success. -/
theorem c3_round_trip_success : validate wbRoundTrip = .success := by decide

/-- C4: whenever some non-empty name occurs in at least two survey rows
(and the survey sheet and its two required columns exist, so that the
earlier schema stages pass), validation fails at the duplicate-name
stage, and the reported table contains exactly the rows bearing a
duplicated name, each tagged with spreadsheet row = index + 2, sorted by
(name, row number). -/
theorem c4_duplicate_rows_reported (wb : Workbook)
    (hs : "survey" ∈ wb.sheetNames) (hn : "name" ∈ wb.surveyCols)
    (ht : "type" ∈ wb.surveyCols) (n : String)
    (hdup : 2 ≤ countName wb.surveyRows n) :
    ∃ rows, validate wb = .failure (.duplicateNames rows) ∧
      List.Sorted dupRowLE rows ∧
      ∀ (k : Nat) (hk : k < wb.surveyRows.length) (m : String),
        (wb.surveyRows.get ⟨k, hk⟩).name = some m →
          ((k + 2, m) ∈ rows ↔ 2 ≤ countName wb.surveyRows m) := by
  have hone : 0 < countName wb.surveyRows n :=
    Nat.lt_of_lt_of_le Nat.zero_lt_two hdup
  have hmem : some n ∈ wb.surveyRows.map SurveyRow.name := by
    unfold countName at hone
    exact List.count_pos_iff.mp hone
  obtain ⟨r, hr, hrn⟩ := List.mem_map.mp hmem
  obtain ⟨⟨k0, hk0⟩, hget⟩ := List.mem_iff_get.mp hr
  have hpair : (k0 + 2, n) ∈ dupPairs wb.surveyRows :=
    mem_dupPairs.mpr ⟨k0, hk0, rfl, by rw [hget]; exact hrn, hdup⟩
  have hne : dupPairs wb.surveyRows ≠ [] := List.ne_nil_of_mem hpair
  refine ⟨sortedDupPairs wb.surveyRows, ?_, ?_, ?_⟩
  · simp [validate, stages, firstError, checkSurveyReadable, checkNameColumn,
      checkRequiredSheets, requiredSheets, checkRequiredColumns,
      requiredColumns, checkDuplicateNames, hs, hn, ht, hne]
  · unfold sortedDupPairs
    exact List.sorted_insertionSort dupRowLE _
  · intro k hk m hm
    unfold sortedDupPairs
    rw [(List.perm_insertionSort dupRowLE _).mem_iff, mem_dupPairs]
    constructor
    · rintro ⟨k', hk', hkk, hname, hcnt⟩
      exact hcnt
    · intro h2
      exact ⟨k, hk, rfl, hm, h2⟩

/-- C4 witness: the theorem applied to the concrete duplicate-name
workbook. -/
theorem c4_duplicate_rows_reported_witness :
    ∃ rows, validate wbDupAndSelect = .failure (.duplicateNames rows) ∧
      List.Sorted dupRowLE rows ∧
      ∀ (k : Nat) (hk : k < wbDupAndSelect.surveyRows.length) (m : String),
        (wbDupAndSelect.surveyRows.get ⟨k, hk⟩).name = some m →
          ((k + 2, m) ∈ rows ↔ 2 ≤ countName wbDupAndSelect.surveyRows m) :=
  c4_duplicate_rows_reported wbDupAndSelect (by decide) (by decide) (by decide)
    "q1" (by decide)

/-- C5: the lexical-validity stage flags a row (with its spreadsheet row
number) exactly when its non-empty name fails the regex, and the string
forms q1, Q_2 and a always pass; on a concrete bad name the pipeline
fails at this stage with the tagged row. -/
theorem c5_lexical_validity :
    (∀ (rows : List SurveyRow) (k : Nat) (hk : k < rows.length) (n : String),
        (rows.get ⟨k, hk⟩).name = some n →
          ((k + 2, n) ∈ invalidPairs rows ↔ pyNameMatch n = false)) ∧
      pyNameMatch "q1" = true ∧ pyNameMatch "Q_2" = true ∧
      pyNameMatch "a" = true ∧
      validate wbBadName = .failure (.invalidNames [(2, "my name")]) := by
  refine ⟨?_, by decide, by decide, by decide, by decide⟩
  intro rows k hk n hname
  rw [mem_invalidPairs]
  constructor
  · rintro ⟨k', hk', hkk, hname', hmatch⟩
    exact hmatch
  · intro hmatch
    exact ⟨k, hk, rfl, hname, hmatch⟩

/-- C5 witness: the stage iff applied at a concrete flagged row. -/
theorem c5_lexical_validity_witness :
    (0 + 2, "my name") ∈
        invalidPairs [{ name := some "my name", type := some "text" }] ↔
      pyNameMatch "my name" = false :=
  c5_lexical_validity.1 [{ name := some "my name", type := some "text" }]
    0 (by decide) "my name" rfl

/-- C6: a row with empty name raises no empty-name flag when its
trimmed, lowercased type is end_group or end_repeat, and does when the
type is text; through the whole pipeline, the end_group variant
validates and the text row fails with the empty-name diagnostic. -/
theorem c6_end_marker_exemption :
    (∀ t : String,
        pyStripLower t = "end_group" ∨ pyStripLower t = "end_repeat" →
          missingNameFlag { name := none, type := some t } = false) ∧
      missingNameFlag { name := none, type := some "text" } = true ∧
      validate wbEndGroupRow = .success ∧
      validate wbEmptyName = .failure .missingNameCells := by
  refine ⟨?_, by decide, by decide, by decide⟩
  intro t h
  have hflag : missingNameFlag { name := none, type := some t } =
      !(endTypes.contains (pyStripLower t)) := rfl
  rcases h with h | h <;> rw [hflag, h] <;> decide

/-- C6 witness: the exemption applied to a mixed-case, padded
end_repeat variant. -/
theorem c6_end_marker_exemption_witness :
    missingNameFlag { name := none, type := some " eNd_RePeAt " } = false :=
  c6_end_marker_exemption.1 " eNd_RePeAt " (Or.inr (by decide))

/-- C7: if some survey type cell yields a captured list identifier (the
keyword followed by whitespace and a token up to the next whitespace)
and the earlier stages pass, then with no choices sheet validation fails
at the select-without-choices stage, and with a choices sheet (with its
required columns) whose non-empty list_name values do not contain the
identifier, validation fails with the missing-lists diagnostic, whose
sorted list contains the identifier; membership is exact string
membership in the defined set. -/
theorem c7_missing_list_reference (wb : Workbook) (t ℓ : String)
    (hs : "survey" ∈ wb.sheetNames) (hn : "name" ∈ wb.surveyCols)
    (ht : "type" ∈ wb.surveyCols)
    (hnodup : dupPairs wb.surveyRows = [])
    (hnoinv : invalidPairs wb.surveyRows = [])
    (hrow : ∃ r ∈ wb.surveyRows, r.type = some t)
    (hext : extractFirstList t = some ℓ) :
    ("choices" ∉ wb.sheetNames → validate wb = .failure .selectNoChoices) ∧
      ("choices" ∈ wb.sheetNames → "list_name" ∈ wb.choicesCols →
        "name" ∈ wb.choicesCols → ℓ ∉ definedLists wb.choicesRows →
          validate wb =
              .failure (.missingLists (missingLists wb.surveyRows wb.choicesRows)) ∧
            ℓ ∈ missingLists wb.surveyRows wb.choicesRows ∧
            List.Sorted stringLe (missingLists wb.surveyRows wb.choicesRows)) := by
  obtain ⟨r, hr, hrt⟩ := hrow
  have hsel := selectUsed_of_extract hr hrt hext
  have hused := mem_usedLists hr hrt hext
  constructor
  · intro hc
    simp [validate, stages, firstError, checkSurveyReadable, checkNameColumn,
      checkRequiredSheets, requiredSheets, checkRequiredColumns,
      requiredColumns, checkDuplicateNames, checkInvalidNames,
      checkSelectWithoutChoices, hs, hn, ht, hnodup, hnoinv, hsel, hc]
  · intro hc hlc hnc hnd
    have hm := mem_missingLists hused hnd
    have hne : missingLists wb.surveyRows wb.choicesRows ≠ [] :=
      List.ne_nil_of_mem hm
    refine ⟨?_, hm, sorted_missingLists _ _⟩
    simp [validate, stages, firstError, checkSurveyReadable, checkNameColumn,
      checkRequiredSheets, requiredSheets, checkRequiredColumns,
      requiredColumns, checkDuplicateNames, checkInvalidNames,
      checkSelectWithoutChoices, checkChoicesBlock, hs, hn, ht, hnodup,
      hnoinv, hc, hlc, hnc, hne]

/-- C7 witness: the theorem applied to the concrete undefined-list
workbook, whose missing list is `colors`. -/
theorem c7_missing_list_reference_witness :
    validate wbSelectMissingList =
        .failure (.missingLists
          (missingLists wbSelectMissingList.surveyRows
            wbSelectMissingList.choicesRows)) ∧
      "colors" ∈ missingLists wbSelectMissingList.surveyRows
          wbSelectMissingList.choicesRows ∧
      List.Sorted stringLe (missingLists wbSelectMissingList.surveyRows
        wbSelectMissingList.choicesRows) :=
  (c7_missing_list_reference wbSelectMissingList "select_one colors" "colors"
      (by decide) (by decide) (by decide) (by decide) (by decide)
      ⟨{ name := some "q1", type := some "select_one colors" }, by decide, rfl⟩
      (by decide)).2 (by decide) (by decide) (by decide) (by decide)

/-- C8 (code bug): when the empty-name stage fails, the script stops
with only the message of line 179: unlike the duplicate-name,
invalid-name and empty-type stages, it builds no excel_row-tagged table
(the source line 177 carries a TODO to add the row numbers). -/
theorem c8_empty_name_no_row_table :
    validate wbEmptyName = .failure .missingNameCells ∧
      showsRowNumbers VError.missingNameCells = false ∧
      showsRowNumbers (VError.duplicateNames [(2, "q1")]) = true := by decide

/-- C9 counterexample: when both required columns are absent, the
pipeline stops at the name-column guard of line 41, whose message does
not mention `type`, so it does not name exactly the missing set. -/
theorem c9_missing_columns_counterexample :
    ("name" ∉ wbNoNameCol.surveyCols ∧ "type" ∉ wbNoNameCol.surveyCols) ∧
      validate wbNoNameCol = .failure .nameColumnMissing ∧
      hasSubstring "type".toList
        (errorMessage VError.nameColumnMissing).toList = false := by decide

/-- C9 amended: with the survey sheet present, a missing `name` column
always stops at the name-column guard (naming only `name`), and when
only `type` is missing the missing-columns diagnostic names exactly
`type`. -/
theorem c9_missing_columns_amended (wb : Workbook)
    (hs : "survey" ∈ wb.sheetNames) :
    ("name" ∉ wb.surveyCols → validate wb = .failure .nameColumnMissing) ∧
      ("name" ∈ wb.surveyCols → "type" ∉ wb.surveyCols →
        validate wb = .failure (.missingColumns ["type"]) ∧
          hasSubstring "type".toList
            (errorMessage (VError.missingColumns ["type"])).toList = true) := by
  constructor
  · intro hn
    simp [validate, stages, firstError, checkSurveyReadable, checkNameColumn,
      hs, hn]
  · intro hn ht
    refine ⟨?_, by decide⟩
    simp [validate, stages, firstError, checkSurveyReadable, checkNameColumn,
      checkRequiredSheets, requiredSheets, checkRequiredColumns,
      requiredColumns, hs, hn, ht]

/-- C9 witness: the amended theorem applied to the workbook missing only
`type`. -/
theorem c9_missing_columns_amended_witness :
    validate wbTypeMissingCol = .failure (.missingColumns ["type"]) ∧
      hasSubstring "type".toList
        (errorMessage (VError.missingColumns ["type"])).toList = true :=
  (c9_missing_columns_amended wbTypeMissingCol (by decide)).2 (by decide)
    (by decide)

/-- C10: the select-usage test is a substring search with only a
trailing word boundary (no boundary is required before the keyword), so
the keyword embedded at the end of a longer token still counts: every
type value of the shape pre ++ "select_one " ++ post is detected, and
the concrete form with type not_select_one pets and no choices sheet
fails with the select-without-choices diagnostic. -/
theorem c10_embedded_select_keyword :
    (∀ pre post : List Char,
        containsSelectKw (pre ++ ("select_one ".toList ++ post)) = true) ∧
      selectUsed wbEmbeddedKeyword.surveyRows = true ∧
      validate wbEmbeddedKeyword = .failure .selectNoChoices := by
  refine ⟨?_, by decide, by decide⟩
  intro pre post
  exact containsSelectKw_append_right pre _ (containsSelectKw_select_one_space post)

end XlsformValidator
